import Mathlib

/-!
Shallow embedding of the Cyber Runner simulation core
(source: src/cyber-runner/src/app/page.tsx).

Numbers are modelled as exact rationals (JavaScript decimal literals such as
0.35 or 4.2 are exact in this range, and none of the verified properties
depend on floating-point rounding).  The external collaborators are
abstracted: Math.sin is an opaque function supplied by an environment
record, Math.random draws and performance.now() are per-tick environment
values, and audio is modelled as the list of requested tone frequencies.
The module-level unique-id counter is threaded explicitly.
-/

namespace CyberRunner

inductive GameStatus
  | idle
  | running
  | paused
  | over
deriving DecidableEq, Repr

inductive EntityType
  | data
  | firewall
  | virus
deriving DecidableEq, Repr

structure Entity where
  id : Nat
  type : EntityType
  x : ℚ
  y : ℚ
  width : ℚ
  height : ℚ
  speed : ℚ
  amplitude : Option ℚ
  phase : Option ℚ
deriving DecidableEq, Repr

structure Player where
  x : ℚ
  y : ℚ
  width : ℚ
  height : ℚ
  vy : ℚ
  vx : ℚ
  onGround : Bool
  shieldCharges : ℤ
  invulnerableUntil : ℚ
deriving DecidableEq, Repr

structure LevelConfig where
  level : Nat
  speedScale : ℚ
  obstacleInterval : ℚ
  virusInterval : ℚ
  dataInterval : ℚ
  label : String
deriving DecidableEq, Repr

structure LeaderboardEntry where
  name : String
  score : ℚ
  timestamp : ℚ
deriving DecidableEq, Repr

structure Inputs where
  left : Bool
  right : Bool
  jumpQueued : Bool
deriving DecidableEq, Repr

structure UpgradeState where
  speed : Nat
  jump : Nat
  shield : Nat
deriving DecidableEq, Repr

structure LastSpawn where
  firewall : ℚ
  virus : ℚ
  data : ℚ
deriving DecidableEq, Repr

structure World where
  status : GameStatus
  player : Player
  entities : List Entity
  lastFrame : ℚ
  lastSpawn : LastSpawn
  score : ℚ
  upgradePoints : ℤ
  level : Nat
  inputs : Inputs
deriving DecidableEq, Repr

/-- Per-tick environment: the opaque Math.sin function, the value of
performance.now() captured inside the tick, and the Math.random draws used
by the entity factory on this tick. -/
structure Env where
  sin : ℚ → ℚ
  timeNow : ℚ
  virusPhase : ℚ
  dataPhase : ℚ
  dataHigh : Bool

def CANVAS_WIDTH : ℚ := 960
def CANVAS_HEIGHT : ℚ := 540
def GROUND_HEIGHT : ℚ := 120
def GRAVITY : ℚ := 0.6
def MAX_LEADERS : Nat := 5

def LEVEL1 : LevelConfig :=
  { level := 1, speedScale := 1, obstacleInterval := 1600, virusInterval := 2900,
    dataInterval := 1100, label := "Boot Sequence" }

def LEVEL2 : LevelConfig :=
  { level := 2, speedScale := 1.35, obstacleInterval := 1400, virusInterval := 2400,
    dataInterval := 950, label := "Firewall Breach" }

def LEVEL3 : LevelConfig :=
  { level := 3, speedScale := 1.7, obstacleInterval := 1150, virusInterval := 1900,
    dataInterval := 820, label := "Cyber Overload" }

def LEVELS : List LevelConfig := [LEVEL1, LEVEL2, LEVEL3]

def initialPlayer (shieldCharges : ℤ) : Player :=
  { x := 160, y := CANVAS_HEIGHT - GROUND_HEIGHT - 72, width := 48, height := 72,
    vy := 0, vx := 0, onGround := true, shieldCharges := shieldCharges,
    invulnerableUntil := 0 }

def clamp (value min max : ℚ) : ℚ := Max.max min (Min.min max value)

def getLevel (score : ℚ) : LevelConfig :=
  if score ≥ 1600 then LEVEL3
  else if score ≥ 600 then LEVEL2
  else LEVEL1

/-- The module-level id counter: increment, then return the new value. -/
def createUniqueId (c : Nat) : Nat × Nat := (c + 1, c + 1)

def spawnFirewall (id : Nat) (level : LevelConfig) : Entity :=
  { id := id, type := EntityType.firewall, x := CANVAS_WIDTH + 40,
    y := CANVAS_HEIGHT - GROUND_HEIGHT - 60, width := 50, height := 60,
    speed := 4.2 * level.speedScale, amplitude := none, phase := none }

def spawnVirus (id : Nat) (level : LevelConfig) (phase : ℚ) : Entity :=
  { id := id, type := EntityType.virus, x := CANVAS_WIDTH + 40,
    y := CANVAS_HEIGHT - GROUND_HEIGHT - 140, width := 54, height := 54,
    speed := 3.8 * level.speedScale, amplitude := some (26 + (level.level : ℚ) * 6),
    phase := some phase }

def spawnDataPacket (id : Nat) (level : LevelConfig) (high : Bool) (phase : ℚ) : Entity :=
  { id := id, type := EntityType.data, x := CANVAS_WIDTH + 40,
    y := CANVAS_HEIGHT - GROUND_HEIGHT - (if high then 180 else 90),
    width := 36, height := 36, speed := 4.1 * level.speedScale,
    amplitude := some 18, phase := some phase }

/-- Jump handling (lines 475-482 of the source): a queued jump is honored
only when grounded; it sets upward velocity scaled by the jump upgrade,
clears the ground flag and consumes the queued request. -/
def jumpStep (upg : UpgradeState) (p : Player) (inputs : Inputs) : Player × Inputs :=
  if inputs.jumpQueued && p.onGround then
    ({ p with vy := -(12 + (upg.jump : ℚ) * 1.8), onGround := false },
     { inputs with jumpQueued := false })
  else (p, inputs)

/-- Horizontal and vertical physics for one tick (lines 443-491). -/
def physicsStep (upg : UpgradeState) (deltaScale : ℚ) (w : World) : World :=
  let playerSpeedBase : ℚ := 5 + (upg.speed : ℚ) * 1.4
  let maxSpeed : ℚ := 9 + (upg.speed : ℚ) * 1.2
  let acceleration : ℚ := 0.5 + (upg.speed : ℚ) * 0.12
  let p := w.player
  let vx :=
    if w.inputs.left then clamp (p.vx - acceleration) (-maxSpeed) maxSpeed
    else if w.inputs.right then clamp (p.vx + acceleration) (-maxSpeed) maxSpeed
    else
      let v := p.vx * 0.92
      if |v| < 0.15 then 0 else v
  let vx := if |vx| < playerSpeedBase * 0.35 && w.inputs.right then playerSpeedBase * 0.6 else vx
  let x := clamp (p.x + vx * deltaScale) 60 (CANVAS_WIDTH - p.width - 80)
  let pi := jumpStep upg { p with vx := vx, x := x } w.inputs
  let p2 := pi.1
  let vy := p2.vy + GRAVITY * deltaScale
  let y := p2.y + vy * deltaScale
  let groundY := CANVAS_HEIGHT - GROUND_HEIGHT - p2.height
  let p3 :=
    if y ≥ groundY then { p2 with y := groundY, vy := 0, onGround := true }
    else { p2 with y := y, vy := vy }
  { w with player := p3, inputs := pi.2 }

/-- Firewall spawn check (lines 494-497). -/
def spawnFirewallStep (timestamp : ℚ) (lvl : LevelConfig) (s : World × Nat) : World × Nat :=
  if timestamp - s.1.lastSpawn.firewall > lvl.obstacleInterval then
    let r := createUniqueId s.2
    ({ s.1 with entities := s.1.entities ++ [spawnFirewall r.2 lvl],
                lastSpawn := { s.1.lastSpawn with firewall := timestamp } }, r.1)
  else s

/-- Virus spawn check (lines 498-501). -/
def spawnVirusStep (env : Env) (timestamp : ℚ) (lvl : LevelConfig) (s : World × Nat) :
    World × Nat :=
  if timestamp - s.1.lastSpawn.virus > lvl.virusInterval then
    let r := createUniqueId s.2
    ({ s.1 with entities := s.1.entities ++ [spawnVirus r.2 lvl env.virusPhase],
                lastSpawn := { s.1.lastSpawn with virus := timestamp } }, r.1)
  else s

/-- Data-packet spawn check (lines 502-505). -/
def spawnDataStep (env : Env) (timestamp : ℚ) (lvl : LevelConfig) (s : World × Nat) :
    World × Nat :=
  if timestamp - s.1.lastSpawn.data > lvl.dataInterval then
    let r := createUniqueId s.2
    ({ s.1 with entities := s.1.entities ++ [spawnDataPacket r.2 lvl env.dataHigh env.dataPhase],
                lastSpawn := { s.1.lastSpawn with data := timestamp } }, r.1)
  else s

/-- Spawn scheduling (lines 493-505): each kind spawns independently when
its interval has elapsed, appending the new entity and resetting that
last-spawn timestamp of that kind, in source order. -/
def spawnStep (env : Env) (timestamp : ℚ) (lvl : LevelConfig) (idc : Nat) (w : World) :
    World × Nat :=
  spawnDataStep env timestamp lvl (spawnVirusStep env timestamp lvl
    (spawnFirewallStep timestamp lvl (w, idc)))

/-- Entity advancement and culling (lines 507-518). -/
def advanceStep (env : Env) (upg : UpgradeState) (lvl : LevelConfig) (deltaScale : ℚ)
    (frame : Nat) (w : World) : World :=
  { w with entities :=
      (w.entities.map (fun e =>
        let x := e.x - (e.speed + (upg.speed : ℚ) * 0.6 + lvl.speedScale) * deltaScale * 4.2
        let y :=
          if e.type != EntityType.firewall then
            e.y + env.sin ((frame : ℚ) / 16 + e.phase.getD 0) * e.amplitude.getD 0 * 0.04 * deltaScale
          else e.y
        { e with x := x, y := y })).filter (fun e => decide (e.x + e.width > -160)) }

/-- Bob offset used by the collision test (line 522): data packets bob with
the global frame counter, other kinds do not. -/
def bobOf (env : Env) (frame : Nat) (e : Entity) : ℚ :=
  if e.type = EntityType.data then env.sin ((frame : ℚ) / 6 + e.phase.getD 0) * 4 else 0

/-- Axis-aligned bounding-box overlap test (lines 524-528). -/
def collides (p : Player) (e : Entity) (bob : ℚ) : Bool :=
  let entityY := e.y + bob
  decide (p.x < e.x + e.width) && decide (p.x + p.width > e.x) &&
    decide (p.y < entityY + e.height) && decide (p.y + p.height > entityY)

/-- Collision resolution for one entity of the snapshot (lines 529-550). -/
def processEntity (env : Env) (frame : Nat) (w : World) (e : Entity) : World :=
  if !collides w.player e (bobOf env frame e) then w
  else if e.type = EntityType.data then
    { w with entities := w.entities.filter (fun x => x.id != e.id),
             score := w.score + 120,
             upgradePoints := w.upgradePoints + 1 }
  else if env.timeNow < w.player.invulnerableUntil then w
  else if w.player.shieldCharges > 0 then
    let p := { w.player with shieldCharges := w.player.shieldCharges - 1,
                             invulnerableUntil := env.timeNow + 1200 }
    { w with player := p, entities := w.entities.filter (fun x => x.id != e.id) }
  else { w with status := GameStatus.over }

/-- The forEach of lines 521-551: iterate the snapshot of the entity array
while the world (including its entity collection) evolves. -/
def collisionStep (env : Env) (frame : Nat) (w : World) : World :=
  w.entities.foldl (processEntity env frame) w

/-- Per-tick time accrual (line 553), unconditional in the source. -/
def scoreAccrual (delta speedScale : ℚ) (w : World) : World :=
  { w with score := w.score + delta * 0.35 * speedScale }

/-- One simulation tick (the simulation part of renderFrame, lines
431-559): no-op unless running, then physics, spawning, advancement,
collision resolution and time accrual in source order.  Returns the new
world together with the global frame counter and id counter. -/
def renderFrame (env : Env) (upg : UpgradeState) (timestamp : ℚ) (frame : Nat) (idc : Nat)
    (w : World) : World × Nat × Nat :=
  if w.status ≠ GameStatus.running then (w, frame, idc)
  else
    let delta := timestamp - w.lastFrame
    let frame1 := frame + 1
    let deltaScale := delta / (1000 / 60)
    let lvl := getLevel w.score
    let w1 := { w with lastFrame := timestamp, level := lvl.level }
    let w2 := physicsStep upg deltaScale w1
    let s := spawnStep env timestamp lvl idc w2
    let w4 := advanceStep env upg lvl deltaScale frame1 s.1
    let w5 := collisionStep env frame1 w4
    (scoreAccrual delta lvl.speedScale w5, frame1, s.2)

inductive UpgradeType
  | speed
  | jump
  | shield
deriving DecidableEq, Repr

def UpgradeState.get (u : UpgradeState) : UpgradeType → Nat
  | UpgradeType.speed => u.speed
  | UpgradeType.jump => u.jump
  | UpgradeType.shield => u.shield

def UpgradeState.set (u : UpgradeState) : UpgradeType → Nat → UpgradeState
  | UpgradeType.speed, n => { u with speed := n }
  | UpgradeType.jump, n => { u with jump := n }
  | UpgradeType.shield, n => { u with shield := n }

/-- Upgrade purchase (lines 709-732).  The third component is the list of
tone frequencies requested from the audio collaborator. -/
def applyUpgrade (t : UpgradeType) (upg : UpgradeState) (world : Option World) :
    UpgradeState × Option World × List ℚ :=
  match world with
  | none => (upg, none, [])
  | some w =>
    if w.status = GameStatus.idle then (upg, some w, [])
    else
      let cost : ℤ := 3 + (upg.get t : ℤ) * 2
      if w.upgradePoints < cost then (upg, some w, [])
      else
        let nextLevel := upg.get t + 1
        let nextUpgrades := upg.set t nextLevel
        let w1 := { w with upgradePoints := w.upgradePoints - cost }
        let w2 :=
          if t = UpgradeType.shield then
            { w1 with player := { w1.player with shieldCharges := w1.player.shieldCharges + 1 } }
          else w1
        (nextUpgrades, some w2, [660 + (nextLevel : ℚ) * 40])

/-- Fresh world allocation (resetWorld, lines 385-402). -/
def resetWorld (now : ℚ) (shieldCharges : ℤ) : World :=
  { status := GameStatus.idle, player := initialPlayer shieldCharges, entities := [],
    lastFrame := now, lastSpawn := { firewall := 0, virus := 0, data := 0 },
    score := 0, upgradePoints := 0, level := 1,
    inputs := { left := false, right := false, jumpQueued := false } }

/-- startGame (lines 672-682): fresh world with shield charges derived from
the shield upgrade level, status running. -/
def startGame (now : ℚ) (upg : UpgradeState) : World :=
  { resetWorld now (1 + (upg.shield : ℤ)) with status := GameStatus.running }

/-- togglePause (lines 684-699). -/
def togglePause (now : ℚ) (w : World) : World :=
  if w.status = GameStatus.running then { w with status := GameStatus.paused }
  else if w.status = GameStatus.paused then
    { w with status := GameStatus.running, lastFrame := now }
  else w

/-- The shield-level synchronization effect (lines 734-743). -/
def syncShield (upg : UpgradeState) (w : World) : World :=
  let shieldLevel : ℤ := 1 + (upg.shield : ℤ)
  if w.player.shieldCharges < shieldLevel then
    { w with player := { w.player with shieldCharges := shieldLevel } }
  else w

/-- saveScore (lines 409-422): append the new entry (empty names fall back
to Anonymous via the JavaScript or-operator), sort descending by score
(stably, as Array.prototype.sort), truncate to the cap. -/
def saveScore (playerName : String) (score ts : ℚ) (prev : List LeaderboardEntry) :
    List LeaderboardEntry :=
  let entry : LeaderboardEntry :=
    { name := if playerName = "" then "Anonymous" else playerName,
      score := score, timestamp := ts }
  ((prev ++ [entry]).mergeSort (fun a b => decide (b.score ≤ a.score))).take MAX_LEADERS

/-- A data-packet entity that overlaps the player box p at collision time. -/
def collD (p : Player) (env : Env) (frame : Nat) (e : Entity) : Bool :=
  collides p e (bobOf env frame e) && decide (e.type = EntityType.data)

/-- Two players with the same bounding box (collision tests agree). -/
def sameBox (p q : Player) : Prop :=
  p.x = q.x ∧ p.y = q.y ∧ p.width = q.width ∧ p.height = q.height

/-- Reachable simulation states (upgrade snapshot paired with the world),
closed under the operations the page can perform on a live world. -/
inductive Reachable : UpgradeState × World → Prop
  | start (upg : UpgradeState) (now : ℚ) : Reachable (upg, startGame now upg)
  | tick (env : Env) (ts : ℚ) (f idc : Nat) (u : UpgradeState) (w : World) :
      Reachable (u, w) → Reachable (u, (renderFrame env u ts f idc w).1)
  | upgrade (t : UpgradeType) (u : UpgradeState) (w : World) :
      Reachable (u, w) →
      Reachable ((applyUpgrade t u (some w)).1, ((applyUpgrade t u (some w)).2.1).getD w)
  | sync (u : UpgradeState) (w : World) :
      Reachable (u, w) → Reachable (u, syncShield u w)
  | toggle (now : ℚ) (u : UpgradeState) (w : World) :
      Reachable (u, w) → Reachable (u, togglePause now w)

/-! Concrete sample inputs used by witnesses and counterexamples. -/

/-- Sample environment: zero sine collaborator, performance.now() = 0. -/
def env0 : Env :=
  { sin := fun _ => 0, timeNow := 0, virusPhase := 0, dataPhase := 0, dataHigh := false }

def upg0 : UpgradeState := { speed := 0, jump := 0, shield := 0 }

/-- A firewall hazard overlapping the initial player box. -/
def fw0 : Entity :=
  { id := 1, type := EntityType.firewall, x := 160, y := 348, width := 50, height := 60,
    speed := 4.2, amplitude := none, phase := none }

/-- A data packet overlapping the initial player box. -/
def d0 : Entity :=
  { id := 2, type := EntityType.data, x := 160, y := 348, width := 36, height := 36,
    speed := 4.1, amplitude := some 18, phase := some 0 }

/-- A running world with zero shield charges facing fw0 then d0. -/
def w0 : World :=
  { status := GameStatus.running, player := initialPlayer 0, entities := [fw0, d0],
    lastFrame := 0, lastSpawn := { firewall := 0, virus := 0, data := 0 },
    score := 0, upgradePoints := 0, level := 1,
    inputs := { left := false, right := false, jumpQueued := false } }

/-- w0, but the player is inside the invulnerability window. -/
def wInv : World :=
  { w0 with player := { initialPlayer 0 with invulnerableUntil := 5 } }

/-- A running world about to collect exactly the one data packet d0. -/
def wData : World := { w0 with entities := [d0], player := initialPlayer 1 }

/-- A world already in the terminal status. -/
def wOver : World := { w0 with status := GameStatus.over }

/-- A running world holding exactly 3 upgrade points. -/
def wRich : World := { w0 with upgradePoints := 3 }

/-- A running world holding only 2 upgrade points (cost minus one). -/
def wPoor : World := { w0 with upgradePoints := 2 }

/-- A running world whose player is airborne. -/
def wAir : World :=
  { w0 with player := { initialPlayer 1 with onGround := false, y := 100 } }

theorem UpgradeState.get_set_self (u : UpgradeState) (t : UpgradeType) (n : Nat) :
    (u.set t n).get t = n := by
  cases t <;> rfl

/-- Claim C7: the difficulty selector is total (every non-negative score is
mapped to one of the statically enumerated tiers) and monotone in the score
(thresholds are checked highest first). -/
theorem claim7_getLevel_total_monotone (s1 s2 : ℚ) (h0 : 0 ≤ s1) (h12 : s1 ≤ s2) :
    getLevel s1 ∈ LEVELS ∧ (getLevel s1).level ≤ (getLevel s2).level := by
  unfold getLevel
  split_ifs <;>
    simp_all [LEVELS, LEVEL1, LEVEL2, LEVEL3] <;>
    linarith

theorem claim7_witness :
    getLevel 0 ∈ LEVELS ∧ (getLevel 0).level ≤ (getLevel 700).level :=
  claim7_getLevel_total_monotone 0 700 (by norm_num) (by norm_num)

/-- Claim C9: an upgrade purchase with no world, or with an idle world, is
a silent no-op: upgrades, world and the audio request list are unchanged,
regardless of the available currency. -/
theorem claim9_idle_noop :
    (∀ (t : UpgradeType) (upg : UpgradeState), applyUpgrade t upg none = (upg, none, [])) ∧
    (∀ (t : UpgradeType) (upg : UpgradeState) (w : World), w.status = GameStatus.idle →
      applyUpgrade t upg (some w) = (upg, some w, [])) := by
  constructor
  · intro t upg
    rfl
  · intro t upg w h
    simp [applyUpgrade, h]

theorem claim9_witness :
    applyUpgrade UpgradeType.speed upg0 none = (upg0, none, []) ∧
    applyUpgrade UpgradeType.speed upg0 (some (resetWorld 0 1)) =
      (upg0, some (resetWorld 0 1), []) :=
  ⟨claim9_idle_noop.1 UpgradeType.speed upg0,
   claim9_idle_noop.2 UpgradeType.speed upg0 (resetWorld 0 1) rfl⟩

theorem applyUpgrade_affordable_eq (t : UpgradeType) (upg : UpgradeState) (w : World)
    (hs : w.status ≠ GameStatus.idle)
    (hnl : ¬ w.upgradePoints < 3 + (upg.get t : ℤ) * 2) :
    applyUpgrade t upg (some w) =
      (upg.set t (upg.get t + 1),
       some (if t = UpgradeType.shield then
               { w with upgradePoints := w.upgradePoints - (3 + (upg.get t : ℤ) * 2),
                        player := { w.player with
                          shieldCharges := w.player.shieldCharges + 1 } }
             else
               { w with upgradePoints := w.upgradePoints - (3 + (upg.get t : ℤ) * 2) }),
       [660 + ((upg.get t : ℚ) + 1) * 40]) := by
  simp [applyUpgrade, hs, hnl]

/-- Claim C6: with cost 3 + 2·(current level), purchasing at currency
exactly equal to the cost succeeds, increments the level and leaves the
currency at 0; purchasing at cost minus one is silently rejected with no
state change. -/
theorem claim6_upgrade_cost (t : UpgradeType) (upg : UpgradeState) (w : World)
    (hs : w.status ≠ GameStatus.idle) :
    (w.upgradePoints = 3 + 2 * (upg.get t : ℤ) →
      (applyUpgrade t upg (some w)).1.get t = upg.get t + 1 ∧
      ∃ w2, (applyUpgrade t upg (some w)).2.1 = some w2 ∧ w2.upgradePoints = 0) ∧
    (w.upgradePoints = 3 + 2 * (upg.get t : ℤ) - 1 →
      applyUpgrade t upg (some w) = (upg, some w, [])) := by
  constructor
  · intro hp
    have hnl : ¬ w.upgradePoints < 3 + (upg.get t : ℤ) * 2 := by omega
    rw [applyUpgrade_affordable_eq t upg w hs hnl]
    refine ⟨UpgradeState.get_set_self upg t _, ?_⟩
    split_ifs <;> exact ⟨_, rfl, by simp; omega⟩
  · intro hp
    have hl : w.upgradePoints < 3 + (upg.get t : ℤ) * 2 := by omega
    simp [applyUpgrade, hs, hl]

theorem claim6_witness :
    ((applyUpgrade UpgradeType.speed upg0 (some wRich)).1.get UpgradeType.speed =
        upg0.get UpgradeType.speed + 1 ∧
      ∃ w2, (applyUpgrade UpgradeType.speed upg0 (some wRich)).2.1 = some w2 ∧
        w2.upgradePoints = 0) ∧
    applyUpgrade UpgradeType.speed upg0 (some wPoor) = (upg0, some wPoor, []) :=
  ⟨(claim6_upgrade_cost UpgradeType.speed upg0 wRich (by decide)).1 (by decide),
   (claim6_upgrade_cost UpgradeType.speed upg0 wPoor (by decide)).2 (by decide)⟩

/-- Claim C5: a queued jump request is ignored while airborne (the player
after the physics step is the same whatever the queued-jump flag), and when
grounded it sets the upward velocity scaled by the jump upgrade and clears
the ground flag, consuming the request. -/
theorem claim5_jump_only_grounded :
    (∀ (upg : UpgradeState) (ds : ℚ) (w : World) (b : Bool), w.player.onGround = false →
      (physicsStep upg ds w).player =
        (physicsStep upg ds { w with inputs := { w.inputs with jumpQueued := b } }).player) ∧
    (∀ (upg : UpgradeState) (p : Player) (inp : Inputs),
      p.onGround = true → inp.jumpQueued = true →
      jumpStep upg p inp =
        ({ p with vy := -(12 + (upg.jump : ℚ) * 1.8), onGround := false },
         { inp with jumpQueued := false })) := by
  constructor
  · intro upg ds w b h
    simp [physicsStep, jumpStep, h]
  · intro upg p inp hg hq
    simp [jumpStep, hg, hq]

theorem claim5_witness :
    (physicsStep upg0 1 wAir).player =
      (physicsStep upg0 1 { wAir with inputs := { wAir.inputs with jumpQueued := true } }).player ∧
    jumpStep upg0 (initialPlayer 1) { left := false, right := false, jumpQueued := true } =
      ({ initialPlayer 1 with vy := -(12 + (upg0.jump : ℚ) * 1.8), onGround := false },
       { left := false, right := false, jumpQueued := false }) :=
  ⟨claim5_jump_only_grounded.1 upg0 1 wAir true rfl,
   claim5_jump_only_grounded.2 upg0 (initialPlayer 1)
     { left := false, right := false, jumpQueued := true } rfl rfl⟩

/-- Claim C2: a hazard (firewall or virus) overlapping the player while the
player is inside the invulnerability window is ignored: the whole world is
returned unchanged (no charge consumption, no invulnerability update, no
entity removal, no status change). -/
theorem claim2_invulnerable_ignore (env : Env) (frame : Nat) (w : World) (e : Entity)
    (hhaz : e.type = EntityType.firewall ∨ e.type = EntityType.virus)
    (hcol : collides w.player e (bobOf env frame e) = true)
    (hinv : env.timeNow < w.player.invulnerableUntil) :
    processEntity env frame w e = w := by
  have hnd : ¬ e.type = EntityType.data := by
    rcases hhaz with h | h <;> simp [h]
  simp [processEntity, hcol, hnd, hinv]

theorem sameBox_refl (p : Player) : sameBox p p := ⟨rfl, rfl, rfl, rfl⟩

theorem sameBox_trans {p q r : Player} (h1 : sameBox p q) (h2 : sameBox q r) : sameBox p r := by
  obtain ⟨a1, b1, c1, d1⟩ := h1
  obtain ⟨a2, b2, c2, d2⟩ := h2
  exact ⟨a1.trans a2, b1.trans b2, c1.trans c2, d1.trans d2⟩

theorem collides_congr (p q : Player) (e : Entity) (b : ℚ) (h : sameBox p q) :
    collides p e b = collides q e b := by
  obtain ⟨hx, hy, hw, hh⟩ := h
  simp [collides, hx, hy, hw, hh]

theorem collD_congr (p q : Player) (env : Env) (f : Nat) (e : Entity) (h : sameBox p q) :
    collD p env f e = collD q env f e := by
  unfold collD
  rw [collides_congr p q e _ h]

theorem processEntity_sameBox (env : Env) (f : Nat) (w : World) (e : Entity) :
    sameBox (processEntity env f w e).player w.player := by
  unfold processEntity
  split_ifs <;> exact ⟨rfl, rfl, rfl, rfl⟩

theorem foldl_sameBox (env : Env) (f : Nat) :
    ∀ (l : List Entity) (w : World),
      sameBox (l.foldl (processEntity env f) w).player w.player := by
  intro l
  induction l with
  | nil => intro w; exact sameBox_refl _
  | cons e t ih =>
    intro w
    exact sameBox_trans (ih (processEntity env f w e)) (processEntity_sameBox env f w e)

theorem processEntity_score (env : Env) (f : Nat) (w : World) (e : Entity) :
    (processEntity env f w e).score =
      w.score + (if collD w.player env f e then (120 : ℚ) else 0) := by
  unfold processEntity collD
  by_cases hc : collides w.player e (bobOf env f e)
  · by_cases hd : e.type = EntityType.data
    · simp [hc, hd]
    · simp only [hc, hd, Bool.not_true, Bool.true_and, decide_eq_true_eq, if_false,
        Bool.false_eq_true, ite_false, if_neg hd]
      split_ifs <;> simp
  · simp [hc]

theorem processEntity_points (env : Env) (f : Nat) (w : World) (e : Entity) :
    (processEntity env f w e).upgradePoints =
      w.upgradePoints + (if collD w.player env f e then (1 : ℤ) else 0) := by
  unfold processEntity collD
  by_cases hc : collides w.player e (bobOf env f e)
  · by_cases hd : e.type = EntityType.data
    · simp [hc, hd]
    · simp only [hc, hd, Bool.not_true, Bool.true_and, decide_eq_true_eq, if_false,
        Bool.false_eq_true, ite_false, if_neg hd]
      split_ifs <;> simp
  · simp [hc]

theorem foldl_score_points (env : Env) (f : Nat) (p : Player) :
    ∀ (l : List Entity) (w : World), sameBox w.player p →
      (l.foldl (processEntity env f) w).score =
          w.score + 120 * ((l.filter (collD p env f)).length : ℚ) ∧
        (l.foldl (processEntity env f) w).upgradePoints =
          w.upgradePoints + ((l.filter (collD p env f)).length : ℤ) := by
  intro l
  induction l with
  | nil => intro w _; simp
  | cons e t ih =>
    intro w hb
    have hb2 : sameBox (processEntity env f w e).player p :=
      sameBox_trans (processEntity_sameBox env f w e) hb
    obtain ⟨ihs, ihp⟩ := ih (processEntity env f w e) hb2
    have hcd : collD w.player env f e = collD p env f e := collD_congr _ _ _ _ _ hb
    rw [List.foldl_cons] at *
    constructor
    · rw [ihs, processEntity_score, hcd, List.filter_cons]
      by_cases h : collD p env f e
      · simp [h]
        ring
      · simp [h]
    · rw [ihp, processEntity_points, hcd, List.filter_cons]
      by_cases h : collD p env f e
      · simp [h]
        ring
      · simp [h]

theorem collisionStep_score (env : Env) (f : Nat) (w : World) :
    (collisionStep env f w).score =
      w.score + 120 * ((w.entities.filter (collD w.player env f)).length : ℚ) :=
  (foldl_score_points env f w.player w.entities w (sameBox_refl _)).1

theorem collisionStep_points (env : Env) (f : Nat) (w : World) :
    (collisionStep env f w).upgradePoints =
      w.upgradePoints + ((w.entities.filter (collD w.player env f)).length : ℤ) :=
  (foldl_score_points env f w.player w.entities w (sameBox_refl _)).2

theorem claim2_witness : processEntity env0 1 wInv fw0 = wInv :=
  claim2_invulnerable_ignore env0 1 wInv fw0 (Or.inl rfl)
    (by norm_num +decide [collides, bobOf, wInv, w0, fw0, initialPlayer,
          CANVAS_HEIGHT, GROUND_HEIGHT, env0])
    (by norm_num [env0, wInv, w0, initialPlayer])

theorem processEntity_entities_sublist (env : Env) (f : Nat) (w : World) (e : Entity) :
    (processEntity env f w e).entities.Sublist w.entities := by
  unfold processEntity
  split_ifs <;> first
    | exact List.Sublist.refl _
    | exact List.filter_sublist _

theorem processEntity_id_not_mem (env : Env) (f : Nat) (w : World) (e : Entity) (n : Nat)
    (h : n ∉ w.entities.map Entity.id) :
    n ∉ (processEntity env f w e).entities.map Entity.id := by
  intro hmem
  exact h (((processEntity_entities_sublist env f w e).map Entity.id).subset hmem)

theorem foldl_id_not_mem (env : Env) (f : Nat) :
    ∀ (l : List Entity) (w : World) (n : Nat), n ∉ w.entities.map Entity.id →
      n ∉ ((l.foldl (processEntity env f) w).entities.map Entity.id) := by
  intro l
  induction l with
  | nil => intro w n h; exact h
  | cons e t ih =>
    intro w n h
    exact ih (processEntity env f w e) n (processEntity_id_not_mem env f w e n h)

theorem processEntity_removes_id (env : Env) (f : Nat) (w : World) (e : Entity)
    (hc : collides w.player e (bobOf env f e) = true) (hd : e.type = EntityType.data) :
    e.id ∉ ((processEntity env f w e).entities.map Entity.id) := by
  simp only [processEntity, hc, Bool.not_true, Bool.false_eq_true, if_false, hd, if_true,
    ite_false, ite_true]
  simp only [List.mem_map, List.mem_filter, not_exists, not_and]
  intro x hx
  simpa using hx.2

theorem collisionStep_removes (env : Env) (f : Nat) (w : World) (e : Entity)
    (he : e ∈ w.entities) (hd : e.type = EntityType.data)
    (hc : collides w.player e (bobOf env f e) = true) :
    e.id ∉ ((collisionStep env f w).entities.map Entity.id) := by
  obtain ⟨l1, l2, hsplit⟩ := List.append_of_mem he
  unfold collisionStep
  rw [hsplit, List.foldl_append, List.foldl_cons]
  have hbox : sameBox (l1.foldl (processEntity env f) w).player w.player :=
    foldl_sameBox env f l1 w
  have hc1 : collides (l1.foldl (processEntity env f) w).player e (bobOf env f e) = true := by
    rw [collides_congr _ _ _ _ hbox]; exact hc
  exact foldl_id_not_mem env f l2 _ _
    (processEntity_removes_id env f (l1.foldl (processEntity env f) w) e hc1 hd)

theorem processEntity_charges_nonneg (env : Env) (f : Nat) (w : World) (e : Entity)
    (h : 0 ≤ w.player.shieldCharges) :
    0 ≤ (processEntity env f w e).player.shieldCharges := by
  unfold processEntity
  split_ifs <;> (try simp) <;> omega

theorem foldl_charges_nonneg (env : Env) (f : Nat) :
    ∀ (l : List Entity) (w : World), 0 ≤ w.player.shieldCharges →
      0 ≤ ((l.foldl (processEntity env f) w)).player.shieldCharges := by
  intro l
  induction l with
  | nil => intro w h; exact h
  | cons e t ih =>
    intro w h
    exact ih (processEntity env f w e) (processEntity_charges_nonneg env f w e h)

theorem physicsStep_player_charges (upg : UpgradeState) (ds : ℚ) (w : World) :
    (physicsStep upg ds w).player.shieldCharges = w.player.shieldCharges := by
  simp [physicsStep, jumpStep, apply_ite (fun q : Player × Inputs => q.1),
    apply_ite (fun p : Player => p.shieldCharges)]

theorem spawnFirewallStep_player (ts : ℚ) (lvl : LevelConfig) (s : World × Nat) :
    (spawnFirewallStep ts lvl s).1.player = s.1.player := by
  unfold spawnFirewallStep
  split_ifs <;> rfl

theorem spawnVirusStep_player (env : Env) (ts : ℚ) (lvl : LevelConfig) (s : World × Nat) :
    (spawnVirusStep env ts lvl s).1.player = s.1.player := by
  unfold spawnVirusStep
  split_ifs <;> rfl

theorem spawnDataStep_player (env : Env) (ts : ℚ) (lvl : LevelConfig) (s : World × Nat) :
    (spawnDataStep env ts lvl s).1.player = s.1.player := by
  unfold spawnDataStep
  split_ifs <;> rfl

theorem spawnStep_player (env : Env) (ts : ℚ) (lvl : LevelConfig) (idc : Nat) (w : World) :
    ((spawnStep env ts lvl idc w).1).player = w.player := by
  unfold spawnStep
  rw [spawnDataStep_player, spawnVirusStep_player, spawnFirewallStep_player]

theorem spawnFirewallStep_ids (ts : ℚ) (lvl : LevelConfig) (s : World × Nat) (n : Nat)
    (h : n ∉ s.1.entities.map Entity.id ∧ n ≤ s.2) :
    n ∉ (spawnFirewallStep ts lvl s).1.entities.map Entity.id ∧
      n ≤ (spawnFirewallStep ts lvl s).2 := by
  unfold spawnFirewallStep createUniqueId
  split_ifs <;> simp_all [spawnFirewall] <;> omega

theorem spawnVirusStep_ids (env : Env) (ts : ℚ) (lvl : LevelConfig) (s : World × Nat) (n : Nat)
    (h : n ∉ s.1.entities.map Entity.id ∧ n ≤ s.2) :
    n ∉ (spawnVirusStep env ts lvl s).1.entities.map Entity.id ∧
      n ≤ (spawnVirusStep env ts lvl s).2 := by
  unfold spawnVirusStep createUniqueId
  split_ifs <;> simp_all [spawnVirus] <;> omega

theorem spawnDataStep_ids (env : Env) (ts : ℚ) (lvl : LevelConfig) (s : World × Nat) (n : Nat)
    (h : n ∉ s.1.entities.map Entity.id ∧ n ≤ s.2) :
    n ∉ (spawnDataStep env ts lvl s).1.entities.map Entity.id ∧
      n ≤ (spawnDataStep env ts lvl s).2 := by
  unfold spawnDataStep createUniqueId
  split_ifs <;> simp_all [spawnDataPacket] <;> omega

theorem spawnStep_ids (env : Env) (ts : ℚ) (lvl : LevelConfig) (idc : Nat) (w : World)
    (n : Nat) (h : n ∉ w.entities.map Entity.id) (hle : n ≤ idc) :
    n ∉ ((spawnStep env ts lvl idc w).1).entities.map Entity.id := by
  unfold spawnStep
  exact (spawnDataStep_ids env ts lvl _ n
    (spawnVirusStep_ids env ts lvl _ n
      (spawnFirewallStep_ids ts lvl (w, idc) n ⟨h, hle⟩))).1

theorem advanceStep_ids (env : Env) (upg : UpgradeState) (lvl : LevelConfig) (ds : ℚ)
    (f : Nat) (w : World) (n : Nat) (h : n ∉ w.entities.map Entity.id) :
    n ∉ (advanceStep env upg lvl ds f w).entities.map Entity.id := by
  intro hmem
  apply h
  simp only [advanceStep, List.mem_map, List.mem_filter] at hmem
  obtain ⟨e2, ⟨he2, -⟩, hid⟩ := hmem
  obtain ⟨e1, he1, rfl⟩ := he2
  exact List.mem_map.mpr ⟨e1, he1, hid⟩

theorem renderFrame_not_running (env : Env) (upg : UpgradeState) (ts : ℚ) (f idc : Nat)
    (w : World) (h : w.status ≠ GameStatus.running) :
    renderFrame env upg ts f idc w = (w, f, idc) := by
  simp [renderFrame, h]

theorem renderFrame_running_eq (env : Env) (upg : UpgradeState) (ts : ℚ) (f idc : Nat)
    (w : World) (hst : w.status = GameStatus.running) :
    renderFrame env upg ts f idc w =
      (scoreAccrual (ts - w.lastFrame) (getLevel w.score).speedScale
        (collisionStep env (f + 1)
          (advanceStep env upg (getLevel w.score) ((ts - w.lastFrame) / (1000 / 60)) (f + 1)
            ((spawnStep env ts (getLevel w.score) idc
              (physicsStep upg ((ts - w.lastFrame) / (1000 / 60))
                { w with lastFrame := ts, level := (getLevel w.score).level })).1))),
       f + 1,
       (spawnStep env ts (getLevel w.score) idc
         (physicsStep upg ((ts - w.lastFrame) / (1000 / 60))
           { w with lastFrame := ts, level := (getLevel w.score).level })).2) := by
  simp [renderFrame, hst]

theorem renderFrame_charges_nonneg (env : Env) (upg : UpgradeState) (ts : ℚ) (f idc : Nat)
    (w : World) (h : 0 ≤ w.player.shieldCharges) :
    0 ≤ ((renderFrame env upg ts f idc w).1).player.shieldCharges := by
  by_cases hst : w.status = GameStatus.running
  · rw [renderFrame_running_eq env upg ts f idc w hst]
    have h1 : 0 ≤ (physicsStep upg ((ts - w.lastFrame) / (1000 / 60))
        { w with lastFrame := ts, level := (getLevel w.score).level }).player.shieldCharges := by
      rw [physicsStep_player_charges]
      exact h
    have h2 : 0 ≤ ((spawnStep env ts (getLevel w.score) idc
        (physicsStep upg ((ts - w.lastFrame) / (1000 / 60))
          { w with lastFrame := ts, level := (getLevel w.score).level })).1).player.shieldCharges := by
      rw [spawnStep_player]
      exact h1
    exact foldl_charges_nonneg env (f + 1) _ _ h2
  · rw [renderFrame_not_running env upg ts f idc w hst]
    exact h

theorem renderFrame_fresh_ids (env : Env) (upg : UpgradeState) (ts : ℚ) (f idc : Nat)
    (w : World) (n : Nat) (h : n ∉ w.entities.map Entity.id) (hle : n ≤ idc) :
    n ∉ (((renderFrame env upg ts f idc w).1).entities.map Entity.id) := by
  by_cases hst : w.status = GameStatus.running
  · rw [renderFrame_running_eq env upg ts f idc w hst]
    refine foldl_id_not_mem env (f + 1) _ _ n ?_
    refine advanceStep_ids env upg (getLevel w.score) ((ts - w.lastFrame) / (1000 / 60))
      (f + 1) _ n ?_
    exact spawnStep_ids env ts (getLevel w.score) idc _ n h hle
  · rw [renderFrame_not_running env upg ts f idc w hst]
    exact h

theorem applyUpgrade_charges_nonneg (t : UpgradeType) (u : UpgradeState) (w : World)
    (h : 0 ≤ w.player.shieldCharges) :
    0 ≤ (((applyUpgrade t u (some w)).2.1).getD w).player.shieldCharges := by
  by_cases hi : w.status = GameStatus.idle
  · simp [applyUpgrade, hi]
    exact h
  · by_cases hp : w.upgradePoints < 3 + (u.get t : ℤ) * 2
    · simp [applyUpgrade, hi, hp]
      exact h
    · by_cases htp : t = UpgradeType.shield
      · subst htp
        simp [applyUpgrade, hi, hp]
        omega
      · simp [applyUpgrade, hi, hp, htp]
        exact h

theorem syncShield_charges_nonneg (u : UpgradeState) (w : World)
    (h : 0 ≤ w.player.shieldCharges) :
    0 ≤ (syncShield u w).player.shieldCharges := by
  by_cases hc : w.player.shieldCharges < 1 + (u.shield : ℤ)
  · simp [syncShield, hc]
    omega
  · simp [syncShield, hc]
    exact h

theorem togglePause_player (now : ℚ) (w : World) : (togglePause now w).player = w.player := by
  unfold togglePause
  split_ifs <;> rfl

/-- Claim C8: shield charges are never negative.  A run starts with
1 + shield-upgrade-level charges, and every reachable state (across ticks,
purchases, shield synchronization and pause toggles) keeps the count
non-negative, since the only decrement is guarded by positivity. -/
theorem claim8_shield_nonneg :
    (∀ (upg : UpgradeState) (now : ℚ),
      (startGame now upg).player.shieldCharges = 1 + (upg.shield : ℤ)) ∧
    (∀ s : UpgradeState × World, Reachable s → 0 ≤ s.2.player.shieldCharges) := by
  constructor
  · intro upg now
    rfl
  · intro s hs
    induction hs with
    | start upg now =>
      show (0 : ℤ) ≤ (startGame now upg).player.shieldCharges
      show (0 : ℤ) ≤ 1 + (upg.shield : ℤ)
      omega
    | tick env ts f idc u w hr ih => exact renderFrame_charges_nonneg env u ts f idc w ih
    | upgrade t u w hr ih => exact applyUpgrade_charges_nonneg t u w ih
    | sync u w hr ih => exact syncShield_charges_nonneg u w ih
    | toggle now u w hr ih =>
      show (0 : ℤ) ≤ (togglePause now w).player.shieldCharges
      rw [togglePause_player]
      exact ih

theorem claim8_witness :
    (startGame 5 upg0).player.shieldCharges = 1 + (upg0.shield : ℤ) ∧
    0 ≤ (upg0, startGame 5 upg0).2.player.shieldCharges :=
  ⟨claim8_shield_nonneg.1 upg0 5,
   claim8_shield_nonneg.2 (upg0, startGame 5 upg0) (Reachable.start upg0 5)⟩

/-- Claim C3: pickup collisions are idempotent per entity.  A colliding
data packet is removed from the entity collection by its own collision
step; a tick never re-introduces an already-absent old id (spawned ids are
strictly above the id counter); and the collision pass awards the fixed
bonus exactly once per colliding data element of the snapshot. -/
theorem claim3_pickup_idempotent :
    (∀ (env : Env) (frame : Nat) (w : World) (e : Entity),
      e ∈ w.entities → e.type = EntityType.data →
      collides w.player e (bobOf env frame e) = true →
      e.id ∉ ((collisionStep env frame w).entities.map Entity.id)) ∧
    (∀ (env : Env) (upg : UpgradeState) (ts : ℚ) (f idc : Nat) (w : World) (n : Nat),
      n ∉ w.entities.map Entity.id → n ≤ idc →
      n ∉ (((renderFrame env upg ts f idc w).1).entities.map Entity.id)) ∧
    (∀ (env : Env) (frame : Nat) (w : World),
      (collisionStep env frame w).score =
        w.score + 120 * ((w.entities.filter (collD w.player env frame)).length : ℚ)) :=
  ⟨fun env frame w e he hd hc => collisionStep_removes env frame w e he hd hc,
   fun env upg ts f idc w n h hle => renderFrame_fresh_ids env upg ts f idc w n h hle,
   fun env frame w => collisionStep_score env frame w⟩

theorem claim3_witness :
    (2 ∉ ((collisionStep env0 1 w0).entities.map Entity.id)) ∧
    (3 ∉ (((renderFrame env0 upg0 0 0 10 w0).1).entities.map Entity.id)) ∧
    ((collisionStep env0 1 wData).score =
      wData.score + 120 * ((wData.entities.filter (collD wData.player env0 1)).length : ℚ)) :=
  ⟨claim3_pickup_idempotent.1 env0 1 w0 d0 (by simp [w0]) rfl
     (by norm_num +decide [collides, bobOf, w0, d0, initialPlayer,
           CANVAS_HEIGHT, GROUND_HEIGHT, env0]),
   claim3_pickup_idempotent.2.1 env0 upg0 0 0 10 w0 3 (by decide) (by norm_num),
   claim3_pickup_idempotent.2.2 env0 1 wData⟩

/-- Claim C4: in a collision pass where exactly one data packet overlaps
the player, the resolved-and-accrued world gains exactly the fixed 120
bonus plus the elapsed-time accrual, currency rises by exactly one, and the
packet is removed from the entity collection. -/
theorem claim4_single_pickup (env : Env) (frame : Nat) (delta : ℚ) (lvl : LevelConfig)
    (w : World)
    (h1 : (w.entities.filter (collD w.player env frame)).length = 1) :
    (scoreAccrual delta lvl.speedScale (collisionStep env frame w)).score =
        w.score + 120 + delta * 0.35 * lvl.speedScale ∧
      (scoreAccrual delta lvl.speedScale (collisionStep env frame w)).upgradePoints =
        w.upgradePoints + 1 ∧
      ∀ e ∈ w.entities, collD w.player env frame e = true →
        e.id ∉ ((scoreAccrual delta lvl.speedScale
          (collisionStep env frame w)).entities.map Entity.id) := by
  refine ⟨?_, ?_, ?_⟩
  · show (collisionStep env frame w).score + delta * 0.35 * lvl.speedScale = _
    rw [collisionStep_score, h1]
    push_cast
    ring
  · show (collisionStep env frame w).upgradePoints = _
    rw [collisionStep_points, h1]
    norm_num
  · intro e he hcd
    simp only [collD, Bool.and_eq_true, decide_eq_true_eq] at hcd
    obtain ⟨hc, hd⟩ := hcd
    show e.id ∉ ((collisionStep env frame w).entities.map Entity.id)
    exact collisionStep_removes env frame w e he hd hc

theorem claim4_witness :
    (scoreAccrual 2 LEVEL1.speedScale (collisionStep env0 1 wData)).score =
        wData.score + 120 + 2 * 0.35 * LEVEL1.speedScale ∧
      (scoreAccrual 2 LEVEL1.speedScale (collisionStep env0 1 wData)).upgradePoints =
        wData.upgradePoints + 1 ∧
      ∀ e ∈ wData.entities, collD wData.player env0 1 e = true →
        e.id ∉ ((scoreAccrual 2 LEVEL1.speedScale
          (collisionStep env0 1 wData)).entities.map Entity.id) :=
  claim4_single_pickup env0 1 2 LEVEL1 wData
    (by norm_num +decide [collD, collides, bobOf, wData, w0, d0, initialPlayer,
          CANVAS_HEIGHT, GROUND_HEIGHT, env0, List.filter_cons])

/-- Claim C1 counterexample: in the very tick in which a lethal hazard
contact sets the status to over, score still increases afterwards.  Here
processing the firewall first sets status over at score 0, yet the data
packet later in iteration order is still collected, so the tick ends with
score 120 (the unconditional time accrual of line 553 is also applied,
zero here only because this tick has delta 0). -/
theorem claim1_counterexample :
    (processEntity env0 1 w0 fw0).status = GameStatus.over ∧
    (processEntity env0 1 w0 fw0).score = 0 ∧
    (renderFrame env0 upg0 0 0 10 w0).1.status = GameStatus.over ∧
    (renderFrame env0 upg0 0 0 10 w0).1.score = 120 := by
  refine ⟨?_, ?_, ?_, ?_⟩ <;>
    norm_num +decide [renderFrame, physicsStep, jumpStep, clamp, spawnStep,
      spawnFirewallStep, spawnVirusStep, spawnDataStep, advanceStep,
      collisionStep, processEntity, collides, bobOf, scoreAccrual, getLevel,
      LEVEL1, LEVEL2, LEVEL3, env0, upg0, w0, fw0, d0, initialPlayer,
      CANVAS_WIDTH, CANVAS_HEIGHT, GROUND_HEIGHT, GRAVITY, createUniqueId,
      max_def, min_def]

/-- Claim C1 amended: a lethal hazard contact (no invulnerability, no
charges) sets the status to over, and every tick that starts in a
non-running status leaves the world untouched, so the transition happens
at most once and the score never changes in any later tick; within the
transition tick itself, entities later in iteration order and the
unconditional time accrual may still increase the score. -/
theorem claim1_terminal_freeze :
    (∀ (env : Env) (upg : UpgradeState) (ts : ℚ) (f idc : Nat) (w : World),
      w.status ≠ GameStatus.running → renderFrame env upg ts f idc w = (w, f, idc)) ∧
    (∀ (env : Env) (f : Nat) (w : World) (e : Entity),
      e.type ≠ EntityType.data →
      collides w.player e (bobOf env f e) = true →
      ¬ env.timeNow < w.player.invulnerableUntil →
      w.player.shieldCharges ≤ 0 →
      processEntity env f w e = { w with status := GameStatus.over }) := by
  constructor
  · intro env upg ts f idc w h
    exact renderFrame_not_running env upg ts f idc w h
  · intro env f w e hnd hcol hni hch
    have hns : ¬ w.player.shieldCharges > 0 := by omega
    simp [processEntity, hcol, hnd, hni, hns]

theorem claim1_witness :
    renderFrame env0 upg0 5 0 0 wOver = (wOver, 0, 0) ∧
    processEntity env0 1 w0 fw0 = { w0 with status := GameStatus.over } :=
  ⟨claim1_terminal_freeze.1 env0 upg0 5 0 0 wOver (by decide),
   claim1_terminal_freeze.2 env0 1 w0 fw0 (by decide)
     (by norm_num +decide [collides, bobOf, w0, fw0, initialPlayer,
           CANVAS_HEIGHT, GROUND_HEIGHT, env0])
     (by norm_num [env0, w0, initialPlayer])
     (by decide)⟩

theorem mergeSort_desc_take_sorted (l : List LeaderboardEntry) (k : Nat) :
    ((l.mergeSort (fun a b => decide (b.score ≤ a.score))).take k).Pairwise
      (fun a b => b.score ≤ a.score) := by
  have htrans : ∀ (a b c : LeaderboardEntry),
      decide (b.score ≤ a.score) = true → decide (c.score ≤ b.score) = true →
      decide (c.score ≤ a.score) = true := by
    intro a b c h1 h2
    simp only [decide_eq_true_eq] at h1 h2 ⊢
    exact le_trans h2 h1
  have htotal : ∀ (a b : LeaderboardEntry),
      (decide (b.score ≤ a.score) || decide (a.score ≤ b.score)) = true := by
    intro a b
    simpa using le_total b.score a.score
  have h := @List.sorted_mergeSort LeaderboardEntry
    (fun a b => decide (b.score ≤ a.score)) htrans htotal l
  have h2 := List.Pairwise.sublist (List.take_sublist k _) h
  exact h2.imp (fun hab => by simpa using hab)

/-- Claim C10: saving with an empty name records the entry under the
fallback name Anonymous; for any name the table after saving has length
min(previous length + 1, 5) and is sorted descending by score. -/
theorem claim10_saveScore :
    (∀ (s ts : ℚ) (prev : List LeaderboardEntry),
      saveScore "" s ts prev = saveScore "Anonymous" s ts prev) ∧
    (∀ (name : String) (s ts : ℚ) (prev : List LeaderboardEntry),
      (saveScore name s ts prev).length = min (prev.length + 1) MAX_LEADERS) ∧
    (∀ (name : String) (s ts : ℚ) (prev : List LeaderboardEntry),
      (saveScore name s ts prev).Pairwise (fun a b => b.score ≤ a.score)) := by
  refine ⟨?_, ?_, ?_⟩
  · intro s ts prev
    simp [saveScore]
  · intro name s ts prev
    simp [saveScore, MAX_LEADERS]
    omega
  · intro name s ts prev
    exact mergeSort_desc_take_sorted _ MAX_LEADERS

end CyberRunner
